import Mathlib

/-!
Verification of the dual-codec serialization core (`src/assignment.py`).

The development shallowly embeds the Python program:

* `Stock` / `Trade` become `PyStock` / `PyTrade`; their constructor-assigned
  attribute dictionaries (`vars(self)`) become `stockVars` / `tradeVars`.
* Python runtime values flowing through the codecs become `PyValue`;
  JSON trees (the result of `json.loads`, the input of `json.dumps`)
  become `JValue`.  The text layer itself is elided: `json.dumps` /
  `json.loads` form an exact inverse pair on these trees, so both codec
  paths are modelled tree-to-tree.
* `datetime.date` / `datetime.datetime` / `decimal.Decimal` are modelled by
  their canonical string representations (`PyDate.iso`, `PyDateTime.iso`,
  `PyDecimal.repr`): `fromisoformat`/`isoformat` and `Decimal`/`str` are
  mutually inverse on those, which is all the codecs use.  The accepted
  input grammars are modelled by executable validity predicates below;
  calendar fine points (per-month day counts, leap years) and exotic
  `Decimal` spellings (`NaN`, `Infinity`, whitespace, underscores) are
  outside every record exercised here and are elided.
* Exceptions become `Except PyError`; marshmallow's per-field validation
  messages are accumulated exactly as `Schema.load` does.
-/

set_option autoImplicit false

namespace Assignment

/-! ## Character-level grammars for ISO dates, ISO datetimes, decimal literals -/

/-- All characters are decimal digits and there is at least one. -/
def digits1 (cs : List Char) : Bool :=
  !cs.isEmpty && cs.all Char.isDigit

/-- Numeric value of a digit character. -/
def c2n (c : Char) : Nat := c.toNat - 48

/-- Grammar accepted by `date.fromisoformat`: `YYYY-MM-DD` with month and
day in range (per-month day counts elided). -/
def validDateIso (s : String) : Bool :=
  match s.toList with
  | [y1, y2, y3, y4, h1, m1, m2, h2, d1, d2] =>
    y1.isDigit && y2.isDigit && y3.isDigit && y4.isDigit &&
    h1 == '-' && h2 == '-' &&
    m1.isDigit && m2.isDigit && d1.isDigit && d2.isDigit &&
    (let m := c2n m1 * 10 + c2n m2; 1 ≤ m && m ≤ 12) &&
    (let d := c2n d1 * 10 + c2n d2; 1 ≤ d && d ≤ 31)
  | _ => false

/-- Optional UTC-offset suffix `±HH:MM` (empty means no offset). -/
def validOffset : List Char → Bool
  | [] => true
  | [sg, h1, h2, c, m1, m2] =>
    (sg == '+' || sg == '-') && c == ':' &&
    h1.isDigit && h2.isDigit && m1.isDigit && m2.isDigit &&
    (c2n h1 * 10 + c2n h2 ≤ 23) && (c2n m1 * 10 + c2n m2 ≤ 59)
  | _ => false

/-- Optional fractional-seconds part (3 or 6 digits) followed by an
optional offset. -/
def validFrac : List Char → Bool
  | '.' :: rest =>
    let fr := rest.takeWhile Char.isDigit
    (fr.length == 3 || fr.length == 6) && validOffset (rest.drop fr.length)
  | rest => validOffset rest

/-- Time-of-day part `HH:MM[:SS[.fff[fff]]]` with optional offset,
as accepted by `datetime.fromisoformat`. -/
def validTime : List Char → Bool
  | h1 :: h2 :: c :: m1 :: m2 :: rest =>
    h1.isDigit && h2.isDigit && c == ':' && m1.isDigit && m2.isDigit &&
    (c2n h1 * 10 + c2n h2 ≤ 23) && (c2n m1 * 10 + c2n m2 ≤ 59) &&
    (match rest with
     | [] => true
     | ':' :: s1 :: s2 :: rest2 =>
       s1.isDigit && s2.isDigit && (c2n s1 * 10 + c2n s2 ≤ 59) && validFrac rest2
     | rest2 => validOffset rest2)
  | _ => false

/-- Grammar accepted by `datetime.fromisoformat`: an ISO date, optionally
followed by a separator and a time-of-day with optional offset. -/
def validDatetimeIso (s : String) : Bool :=
  let cs := s.toList
  validDateIso (String.mk (cs.take 10)) &&
  (match cs.drop 10 with
   | [] => true
   | sep :: rest => (sep == 'T' || sep == ' ') && validTime rest)

/-- Optional exponent suffix of a decimal literal: empty, or
`e`/`E`, an optional sign, and at least one digit. -/
def validDecExp : List Char → Bool
  | [] => true
  | e :: rest =>
    (e == 'e' || e == 'E') &&
    (match rest with
     | c :: r2 => if c == '+' || c == '-' then digits1 r2 else digits1 (c :: r2)
     | [] => false)

/-- Grammar accepted by `decimal.Decimal` on ordinary numeric literals:
optional sign, digits with at most one point (at least one digit in the
mantissa), optional exponent. -/
def validDecStr (s : String) : Bool :=
  let cs0 := s.toList
  let cs := match cs0 with
    | c :: r => if c == '+' || c == '-' then r else cs0
    | [] => cs0
  let ip := cs.takeWhile Char.isDigit
  match cs.drop ip.length with
  | '.' :: r2 =>
    let fp := r2.takeWhile Char.isDigit
    (ip.length + fp.length != 0) && validDecExp (r2.drop fp.length)
  | rest => (ip.length != 0) && validDecExp rest

/-- Grammar accepted by `int` on strings: optional sign, then digits. -/
def validIntStr (s : String) : Bool :=
  match s.toList with
  | c :: rest => if c == '+' || c == '-' then digits1 rest else digits1 (c :: rest)
  | [] => false

/-- Value of an unsigned digit string. -/
def digitsVal (cs : List Char) : Nat :=
  cs.foldl (fun a c => a * 10 + c2n c) 0

/-- Integer value of a string accepted by `validIntStr`. -/
def parseIntStr (s : String) : Int :=
  match s.toList with
  | '-' :: rest => -(digitsVal rest : Int)
  | '+' :: rest => (digitsVal rest : Int)
  | cs => (digitsVal cs : Int)

/-! ## Scalar domain types -/

/-- `datetime.date`, identified with its canonical ISO representation. -/
structure PyDate where
  iso : String

/-- `datetime.datetime`, identified with its canonical `isoformat()`. -/
structure PyDateTime where
  iso : String

/-- `decimal.Decimal`, identified with its canonical `str()` form. -/
structure PyDecimal where
  repr : String

/-! ## Errors -/

/-- The Python exceptions the two codec paths can raise. -/
inductive PyError where
  /-- `KeyError(k)` from a missing dictionary key. -/
  | keyError (k : String)
  /-- `TypeError` (e.g. `fromisoformat` on a non-string). -/
  | typeError (m : String)
  /-- `ValueError` (e.g. an invalid isoformat string, and the wrapper
  raised by `deserialize_with_marshmallow`). -/
  | valueError (m : String)
  /-- `decimal.InvalidOperation` from `Decimal` on a bad literal; not a
  subclass of `TypeError`/`ValueError`, so `DecimalField` does not catch it. -/
  | invalidOperation (m : String)
  /-- `marshmallow.ValidationError`, carrying one message per failed field
  in processing order. -/
  | validationError (msgs : List (String × String))

/-- Python `str(e)` of the above exceptions, as interpolated by
`deserialize_with_marshmallow`.  A `ValidationError` renders its message
mapping like the Python `dict` repr. -/
def errStr : PyError → String
  | .keyError k => "\x27" ++ k ++ "\x27"
  | .typeError m => m
  | .valueError m => m
  | .invalidOperation m => m
  | .validationError msgs =>
    "\x7b" ++
      String.intercalate ", "
        (msgs.map (fun p => "\x27" ++ p.1 ++ "\x27: [\x27" ++ p.2 ++ "\x27]")) ++
    "\x7d"

/-! ## Records -/

/-- `Stock`: the constructor parameters of `Stock.__init__`.  Note the
parameter `open_` is stored by `__init__` under the attribute name
`open` (see `stockVars`). -/
structure PyStock where
  symbol : String
  date : PyDate
  open_ : PyDecimal
  high : PyDecimal
  low : PyDecimal
  close : PyDecimal
  volume : Int

/-- `Trade`: the constructor parameters of `Trade.__init__`. -/
structure PyTrade where
  symbol : String
  timestamp : PyDateTime
  order : String
  price : PyDecimal
  volume : Int
  commission : PyDecimal

/-! ## Value trees -/

/-- A JSON tree, the output of `json.loads` / input of `json.dumps`.
The records' wire format uses only strings, integers and objects. -/
inductive JValue where
  | jstr (s : String)
  | jint (n : Int)
  | jobj (l : List (String × JValue))

/-- A Python runtime value as seen by the custom codec: JSON primitives
plus the domain scalars, dictionaries, and the two record classes. -/
inductive PyValue where
  | vstr (s : String)
  | vint (n : Int)
  | vdec (d : PyDecimal)
  | vdate (d : PyDate)
  | vdatetime (t : PyDateTime)
  | vdict (l : List (String × PyValue))
  | vstock (s : PyStock)
  | vtrade (t : PyTrade)

/-- A parsed JSON object / the dict handed to the marshmallow path. -/
abbrev JDict := List (String × JValue)

/-- A Python dict of runtime values. -/
abbrev PDict := List (String × PyValue)

/-! ## Python dict operations (insertion-ordered, unique keys) -/

section DictOps

variable {α : Type}

/-- `d[k]` / `k in d`: first entry with the given key. -/
def dictGet : List (String × α) → String → Option α
  | [], _ => none
  | (k, v) :: t, key => if k = key then some v else dictGet t key

/-- `d.pop(k)` / `del d[k]`: drop the entry with the given key,
keeping the order of the rest. -/
def dictRemove : List (String × α) → String → List (String × α)
  | [], _ => []
  | (k, v) :: t, key => if k = key then t else (k, v) :: dictRemove t key

/-- `d[k] = v`: overwrite in place if the key exists, else append. -/
def dictSet : List (String × α) → String → α → List (String × α)
  | [], key, v => [(key, v)]
  | (k, w) :: t, key, v => if k = key then (key, v) :: t else (k, w) :: dictSet t key v

end DictOps

/-- `vars(stock)`: the attribute dict written by `Stock.__init__`, in
assignment order.  The `open_` parameter lands under attribute `open`. -/
def stockVars (s : PyStock) : PDict :=
  [("symbol", .vstr s.symbol), ("date", .vdate s.date), ("open", .vdec s.open_),
   ("high", .vdec s.high), ("low", .vdec s.low), ("close", .vdec s.close),
   ("volume", .vint s.volume), ("datatype", .vstr "stock")]

/-- `vars(trade)`: the attribute dict written by `Trade.__init__`, in
assignment order. -/
def tradeVars (t : PyTrade) : PDict :=
  [("symbol", .vstr t.symbol), ("timestamp", .vdatetime t.timestamp),
   ("order", .vstr t.order), ("price", .vdec t.price),
   ("commission", .vdec t.commission), ("volume", .vint t.volume),
   ("datatype", .vstr "trade")]

/-! ## `str()` and the scalar constructors -/

/-- Python `str()` on a runtime value, as used inside `Decimal(str(v))`.
For dicts and records only the fact that the result is not a decimal
literal matters; their exact repr is abbreviated. -/
def pyStr : PyValue → String
  | .vstr s => s
  | .vint n => toString n
  | .vdec d => d.repr
  | .vdate d => d.iso
  | .vdatetime t => String.map (fun c => if c == 'T' then ' ' else c) t.iso
  | .vdict _ => "\x7b...\x7d"
  | .vstock _ => "<Stock object>"
  | .vtrade _ => "<Trade object>"

/-- Python `str()` on a parsed JSON value (`DecimalField._deserialize`
calls `Decimal(str(value))` on raw wire values). -/
def pyStrJ : JValue → String
  | .jstr s => s
  | .jint n => toString n
  | .jobj _ => "\x7b...\x7d"

/-- `decimal.Decimal(s)`: succeeds exactly on decimal literals, raising
`InvalidOperation` otherwise. -/
def decimalOfString (s : String) : Except PyError PyDecimal :=
  if validDecStr s then .ok (PyDecimal.mk s)
  else .error (.invalidOperation "[<class decimal.ConversionSyntax>]")

/-- `date.fromisoformat(s)`. -/
def dateFromIso (s : String) : Except PyError PyDate :=
  if validDateIso s then .ok (PyDate.mk s)
  else .error (.valueError ("Invalid isoformat string: \x27" ++ s ++ "\x27"))

/-- `datetime.fromisoformat` applied to an arbitrary runtime value:
non-strings raise `TypeError`, invalid strings `ValueError`. -/
def datetimeFromPy : PyValue → Except PyError PyDateTime
  | .vstr s =>
    if validDatetimeIso s then .ok (PyDateTime.mk s)
    else .error (.valueError ("Invalid isoformat string: \x27" ++ s ++ "\x27"))
  | _ => .error (.typeError "fromisoformat: argument must be str")

/-! ## Custom (tagged) encoder: `CustomEncoder` + `json.dumps` -/

/-- `CustomEncoder.default` on a `Stock`: take `vars(self)` and, since the
attribute dict contains key `open`, rename it to `open_` (`data.pop` then
`data[...] = ...`, so the entry moves to the end). -/
def stockDefault (s : PyStock) : PDict :=
  let data := stockVars s
  match dictGet data "open" with
  | some v => dictSet (dictRemove data "open") "open_" v
  | none => data

/-- Map an effectful function over the values of an association list,
keeping keys (the recursion `json` performs over dict members). -/
def mapSndM {β γ : Type} (f : β → Except PyError γ) :
    List (String × β) → Except PyError (List (String × γ))
  | [] => .ok []
  | (k, v) :: t =>
    match f v with
    | .error e => .error e
    | .ok w =>
      match mapSndM f t with
      | .error e => .error e
      | .ok r => .ok ((k, w) :: r)

/-- `json.dumps(·, cls=CustomEncoder)` on a runtime value, fuelled: JSON
primitives serialize directly, dict members recursively; any other value
goes through `CustomEncoder.default` (records to their attribute dicts —
with the `Stock` rename —, datetimes to `isoformat()`, dates to the
wrapped `{datatype: "date", ...}` mapping, decimals to `str()`) and the
result is serialized again. -/
def dumpsF : Nat → PyValue → Except PyError JValue
  | 0 => fun _ => .error (.valueError "maximum recursion depth exceeded")
  | n + 1 => fun v =>
    match v with
    | .vstr s => .ok (.jstr s)
    | .vint i => .ok (.jint i)
    | .vdict l =>
      match mapSndM (dumpsF n) l with
      | .error e => .error e
      | .ok r => .ok (.jobj r)
    | .vstock s => dumpsF n (.vdict (stockDefault s))
    | .vtrade t => dumpsF n (.vdict (tradeVars t))
    | .vdatetime t => .ok (.jstr t.iso)
    | .vdate d =>
      dumpsF n (.vdict [("datatype", .vstr "date"), ("date", .vstr d.iso)])
    | .vdec d => .ok (.jstr d.repr)

/-- The spec's `encode`: `json.dumps(value, cls=CustomEncoder)`, with
fuel far above the nesting depth of any record wire tree. -/
def encode (v : PyValue) : Except PyError JValue := dumpsF 16 v

/-! ## Custom (tagged) decoder: `custom_decoder` + `json.loads` -/

/-- One step of `arg_copy[key] = Decimal(str(arg_copy[key]))`:
`KeyError` if the key is absent, `InvalidOperation` if the stringified
value is not a decimal literal. -/
def coerceDec (l : PDict) (k : String) : Except PyError PDict :=
  match dictGet l k with
  | none => .error (.keyError k)
  | some v =>
    match decimalOfString (pyStr v) with
    | .error e => .error e
    | .ok d => .ok (dictSet l k (.vdec d))

/-- `Trade(**arg_copy)`: succeeds when the keyword dict holds exactly the
six constructor parameters.  `Trade.__init__` would also store values of
unexpected runtime types; the model restricts the parameters to their
annotated types, which every value decoded here satisfies. -/
def mkTradeKw (l : PDict) : Except PyError PyTrade :=
  match dictGet l "symbol", dictGet l "timestamp", dictGet l "order",
        dictGet l "price", dictGet l "volume", dictGet l "commission" with
  | some (.vstr sym), some (.vdatetime ts), some (.vstr ord),
    some (.vdec p), some (.vint vol), some (.vdec cm) =>
    if l.length = 6 then .ok (PyTrade.mk sym ts ord p vol cm)
    else .error (.typeError "Trade() got an unexpected keyword argument")
  | _, _, _, _, _, _ => .error (.typeError "Trade() argument mismatch")

/-- `Stock(**arg_copy)`: succeeds when the keyword dict holds exactly the
seven constructor parameters (same typing note as `mkTradeKw`). -/
def mkStockKw (l : PDict) : Except PyError PyStock :=
  match dictGet l "symbol", dictGet l "date", dictGet l "open_",
        dictGet l "high", dictGet l "low", dictGet l "close",
        dictGet l "volume" with
  | some (.vstr sym), some (.vdate dt), some (.vdec o), some (.vdec hi),
    some (.vdec lo), some (.vdec cl), some (.vint vol) =>
    if l.length = 7 then .ok (PyStock.mk sym dt o hi lo cl vol)
    else .error (.typeError "Stock() got an unexpected keyword argument")
  | _, _, _, _, _, _, _ => .error (.typeError "Stock() argument mismatch")

/-- The `datatype == 'trade'` branch of `custom_decoder` (lines 103-107):
parse `timestamp` (`.get('timestamp', '')`, so a missing key becomes the
unparseable empty string), coerce `price` and `commission` through
`Decimal(str(...))`, then `Trade(**arg_copy)`. -/
def decodeTradeBranch (argCopy : PDict) : Except PyError PyValue :=
  match datetimeFromPy ((dictGet argCopy "timestamp").getD (.vstr "")) with
  | .error e => .error e
  | .ok ts =>
    let c1 := dictSet argCopy "timestamp" (.vdatetime ts)
    match coerceDec c1 "price" with
    | .error e => .error e
    | .ok c2 =>
      match coerceDec c2 "commission" with
      | .error e => .error e
      | .ok c3 =>
        match mkTradeKw c3 with
        | .error e => .error e
        | .ok t => .ok (.vtrade t)

/-- The date-resolution step of the `'stock'` branch (lines 113-118):
an already-native date is kept, a wrapped `{datatype: "date", ...}`
mapping is unwrapped via `date.fromisoformat`, anything else is handed to
`date.fromisoformat` directly (`TypeError` on non-strings). -/
def resolveStockDate (c : PDict) : Except PyError PDict :=
  match dictGet c "date" with
  | none => .error (.keyError "date")
  | some (.vdate _) => .ok c
  | some (.vdict dl) =>
    match dictGet dl "datatype" with
    | some (.vstr tag) =>
      if tag = "date" then
        match dictGet dl "date" with
        | some (.vstr ds) =>
          match dateFromIso ds with
          | .error e => .error e
          | .ok d => .ok (dictSet c "date" (.vdate d))
        | some _ => .error (.typeError "fromisoformat: argument must be str")
        | none => .error (.keyError "date")
      else .error (.typeError "fromisoformat: argument must be str")
    | _ => .error (.typeError "fromisoformat: argument must be str")
  | some (.vstr ds) =>
    match dateFromIso ds with
    | .error e => .error e
    | .ok d => .ok (dictSet c "date" (.vdate d))
  | some _ => .error (.typeError "fromisoformat: argument must be str")

/-- The `datatype == 'stock'` branch of `custom_decoder` (lines 108-119):
rename wire key `open` to `open_` if present, coerce the four price
fields through `Decimal(str(...))`, resolve `date`, then
`Stock(**arg_copy)`. -/
def decodeStockBranch (argCopy : PDict) : Except PyError PyValue :=
  let c0 := match dictGet argCopy "open" with
    | some v => dictSet (dictRemove argCopy "open") "open_" v
    | none => argCopy
  match coerceDec c0 "open_" with
  | .error e => .error e
  | .ok c1 =>
    match coerceDec c1 "high" with
    | .error e => .error e
    | .ok c2 =>
      match coerceDec c2 "low" with
      | .error e => .error e
      | .ok c3 =>
        match coerceDec c3 "close" with
        | .error e => .error e
        | .ok c4 =>
          match resolveStockDate c4 with
          | .error e => .error e
          | .ok c5 =>
            match mkStockKw c5 with
            | .error e => .error e
            | .ok s => .ok (.vstock s)

/-- `custom_decoder` (lines 90-120): on a dict with a `datatype` key,
dispatch on its value (`date` / `trade` / `stock`); every other value —
non-dicts, dicts without the key, and dicts with any other tag value —
is returned unchanged. -/
def custom_decoder (arg : PyValue) : Except PyError PyValue :=
  match arg with
  | .vdict l =>
    match dictGet l "datatype" with
    | some (.vstr dt) =>
      let argCopy := dictRemove l "datatype"
      if dt = "date" then
        -- return date.fromisoformat(arg['date']): reads the original dict
        match dictGet l "date" with
        | some (.vstr ds) =>
          match dateFromIso ds with
          | .error e => .error e
          | .ok d => .ok (.vdate d)
        | some _ => .error (.typeError "fromisoformat: argument must be str")
        | none => .error (.keyError "date")
      else if dt = "trade" then decodeTradeBranch argCopy
      else if dt = "stock" then decodeStockBranch argCopy
      else .ok arg
    | some _ => .ok arg  -- a non-string tag compares unequal to all three
    | none => .ok arg
  | _ => .ok arg

/-- `json.loads(·, object_hook=custom_decoder)`, fuelled: the hook is
applied to every parsed object bottom-up. -/
def loadsF : Nat → JValue → Except PyError PyValue
  | 0 => fun _ => .error (.valueError "maximum recursion depth exceeded")
  | n + 1 => fun j =>
    match j with
    | .jstr s => .ok (.vstr s)
    | .jint i => .ok (.vint i)
    | .jobj l =>
      match mapSndM (loadsF n) l with
      | .error e => .error e
      | .ok pairs => custom_decoder (.vdict pairs)

/-- The spec's `decode`: `json.loads(text, object_hook=custom_decoder)`,
with fuel far above the nesting depth of any record wire tree. -/
def decode (j : JValue) : Except PyError PyValue := loadsF 16 j

/-! ## Marshmallow path: field deserializers

Each field's `_deserialize` yields either a hard exception
(`Except.error`, aborting the whole load, as marshmallow only catches
`ValidationError`), or a field-level outcome: `.ok` with the value or
`.error` with the validation message. -/

/-- `fields.Str(validate=validate.Length(equal=4))` on load. -/
def deserSymbol : JValue → Except PyError (Except String String)
  | .jstr s =>
    if s.length = 4 then .ok (.ok s) else .ok (.error "Length must be 4.")
  | _ => .ok (.error "Not a valid string.")

/-- `fields.Str(validate=validate.OneOf(['buy', 'sell']))` on load. -/
def deserOrder : JValue → Except PyError (Except String String)
  | .jstr s =>
    if s = "buy" ∨ s = "sell" then .ok (.ok s)
    else .ok (.error "Must be one of: buy, sell.")
  | _ => .ok (.error "Not a valid string.")

/-- `fields.Date` on load: ISO date strings only. -/
def deserDateF : JValue → Except PyError (Except String PyDate)
  | .jstr s =>
    if validDateIso s then .ok (.ok (PyDate.mk s))
    else .ok (.error "Not a valid date.")
  | _ => .ok (.error "Not a valid date.")

/-- `fields.DateTime` on load: ISO datetime strings only. -/
def deserDateTimeF : JValue → Except PyError (Except String PyDateTime)
  | .jstr s =>
    if validDatetimeIso s then .ok (.ok (PyDateTime.mk s))
    else .ok (.error "Not a valid datetime.")
  | _ => .ok (.error "Not a valid datetime.")

/-- `DecimalField._deserialize`: `Decimal(str(value))`.  Its
`except (TypeError, ValueError)` clause never fires — `Decimal` raises
`InvalidOperation` on bad literals — so a parse failure escapes as a hard
exception instead of a field message. -/
def deserDecimalF (v : JValue) : Except PyError (Except String PyDecimal) :=
  match decimalOfString (pyStrJ v) with
  | .ok d => .ok (.ok d)
  | .error e => .error e

/-- `fields.Integer` on load: native integers, or integer-literal strings. -/
def deserIntegerF : JValue → Except PyError (Except String Int)
  | .jint n => .ok (.ok n)
  | .jstr s =>
    if validIntStr s then .ok (.ok (parseIntStr s))
    else .ok (.error "Not a valid integer.")
  | _ => .ok (.error "Not a valid integer.")

/-- Load one required schema field from the input dict: a missing key
gives the `required` message, otherwise the field deserializer runs;
the error is recorded under the field's wire key (its `data_key`). -/
def loadF {α : Type} (data : JDict) (key : String)
    (f : JValue → Except PyError (Except String α)) :
    Except PyError (Except (String × String) α) :=
  match dictGet data key with
  | none => .ok (.error (key, "Missing data for required field."))
  | some v =>
    match f v with
    | .error e => .error e
    | .ok (.ok a) => .ok (.ok a)
    | .ok (.error m) => .ok (.error (key, m))

/-- The messages contributed by one field outcome. -/
def fieldErrs {α : Type} : Except (String × String) α → List (String × String)
  | .error e => [e]
  | .ok _ => []

/-- `StockSchema().load(data)`: process the declared load fields in
declaration order (`datatype` is `dump_only` and, like all unknown input
keys, is dropped by `Meta.unknown = EXCLUDE`); aggregate every field
message into a single `ValidationError`; on success `post_load` builds
`Stock(**data)`.  The `open_` field reads wire key `open` (`data_key`). -/
def loadStockSchema (data : JDict) : Except PyError PyStock :=
  match loadF data "symbol" deserSymbol with
  | .error e => .error e
  | .ok rSym =>
  match loadF data "date" deserDateF with
  | .error e => .error e
  | .ok rDate =>
  match loadF data "open" deserDecimalF with
  | .error e => .error e
  | .ok rOpen =>
  match loadF data "high" deserDecimalF with
  | .error e => .error e
  | .ok rHigh =>
  match loadF data "low" deserDecimalF with
  | .error e => .error e
  | .ok rLow =>
  match loadF data "close" deserDecimalF with
  | .error e => .error e
  | .ok rClose =>
  match loadF data "volume" deserIntegerF with
  | .error e => .error e
  | .ok rVol =>
  match rSym, rDate, rOpen, rHigh, rLow, rClose, rVol with
  | .ok sym, .ok dt, .ok o, .ok hi, .ok lo, .ok cl, .ok vol =>
    .ok (PyStock.mk sym dt o hi lo cl vol)
  | _, _, _, _, _, _, _ =>
    .error (.validationError
      (fieldErrs rSym ++ fieldErrs rDate ++ fieldErrs rOpen ++ fieldErrs rHigh ++
       fieldErrs rLow ++ fieldErrs rClose ++ fieldErrs rVol))

/-- `TradeSchema().load(data)`: same shape as `loadStockSchema`. -/
def loadTradeSchema (data : JDict) : Except PyError PyTrade :=
  match loadF data "symbol" deserSymbol with
  | .error e => .error e
  | .ok rSym =>
  match loadF data "timestamp" deserDateTimeF with
  | .error e => .error e
  | .ok rTs =>
  match loadF data "order" deserOrder with
  | .error e => .error e
  | .ok rOrd =>
  match loadF data "price" deserDecimalF with
  | .error e => .error e
  | .ok rPr =>
  match loadF data "commission" deserDecimalF with
  | .error e => .error e
  | .ok rCm =>
  match loadF data "volume" deserIntegerF with
  | .error e => .error e
  | .ok rVol =>
  match rSym, rTs, rOrd, rPr, rCm, rVol with
  | .ok sym, .ok ts, .ok ord, .ok pr, .ok cm, .ok vol =>
    .ok (PyTrade.mk sym ts ord pr vol cm)
  | _, _, _, _, _, _ =>
    .error (.validationError
      (fieldErrs rSym ++ fieldErrs rTs ++ fieldErrs rOrd ++ fieldErrs rPr ++
       fieldErrs rCm ++ fieldErrs rVol))

/-! ## Marshmallow path: dump -/

/-- Dump one `fields.Str` field: look the attribute up in the object's
attribute dict; a missing attribute is silently omitted. -/
def dumpStrF (vars : PDict) (attr key : String) : JDict :=
  match dictGet vars attr with
  | some v => [(key, .jstr (pyStr v))]
  | none => []

/-- Dump one `fields.Date` field (non-date attributes would raise in
marshmallow; the records' attribute dicts never hold one there). -/
def dumpDateF (vars : PDict) (attr key : String) : JDict :=
  match dictGet vars attr with
  | some (.vdate d) => [(key, .jstr d.iso)]
  | some _ => []
  | none => []

/-- Dump one `fields.DateTime` field. -/
def dumpDateTimeF (vars : PDict) (attr key : String) : JDict :=
  match dictGet vars attr with
  | some (.vdatetime t) => [(key, .jstr t.iso)]
  | some _ => []
  | none => []

/-- `DecimalField._serialize`: `str(value)`, emitted as a JSON string. -/
def DecimalField_serialize (v : PyValue) : JValue := .jstr (pyStr v)

/-- Dump one `DecimalField`. -/
def dumpDecF (vars : PDict) (attr key : String) : JDict :=
  match dictGet vars attr with
  | some v => [(key, DecimalField_serialize v)]
  | none => []

/-- Dump one `fields.Integer` field. -/
def dumpIntF (vars : PDict) (attr key : String) : JDict :=
  match dictGet vars attr with
  | some (.vint n) => [(key, .jint n)]
  | some _ => []
  | none => []

/-- `StockSchema().dump(stock)`: serialize each declared field from the
attribute named by the field, emitting it under its `data_key`; the
`datatype` constant needs no attribute.  The `open_` field looks up
attribute `open_`, which `Stock.__init__` never writes (it stores the
value under `open`), so that lookup misses and the field is omitted. -/
def dumpStockSchema (s : PyStock) : JDict :=
  let vs := stockVars s
  dumpStrF vs "symbol" "symbol" ++ dumpDateF vs "date" "date" ++
  dumpDecF vs "open_" "open" ++ dumpDecF vs "high" "high" ++
  dumpDecF vs "low" "low" ++ dumpDecF vs "close" "close" ++
  dumpIntF vs "volume" "volume" ++ [("datatype", .jstr "stock")]

/-- `TradeSchema().dump(trade)`: every declared attribute exists. -/
def dumpTradeSchema (t : PyTrade) : JDict :=
  let vs := tradeVars t
  dumpStrF vs "symbol" "symbol" ++ dumpDateTimeF vs "timestamp" "timestamp" ++
  dumpStrF vs "order" "order" ++ dumpDecF vs "price" "price" ++
  dumpDecF vs "commission" "commission" ++ dumpIntF vs "volume" "volume" ++
  [("datatype", .jstr "trade")]

/-! ## Marshmallow path: public wrappers -/

/-- `serialize_with_marshmallow` (lines 182-197): dump through the
matching schema; for `Stock`, rename a dumped `open_` key back to `open`
(dead in practice: `dump` emits under the `data_key`, so `open_` never
appears); other objects raise `ValueError`. -/
def serialize_with_marshmallow (v : PyValue) : Except PyError JValue :=
  match v with
  | .vstock s =>
    let data := dumpStockSchema s
    let data2 := match dictGet data "open_" with
      | some w => dictSet (dictRemove data "open_") "open" w
      | none => data
    .ok (.jobj data2)
  | .vtrade t => .ok (.jobj (dumpTradeSchema t))
  | _ => .error (.valueError "Object must be either Stock or Trade")

/-- The `except Exception` clause of `deserialize_with_marshmallow`
(lines 222-223): any failure is re-raised as
`ValueError(f"Failed to deserialize: {e}")`. -/
def wrapLoad {α : Type} : Except PyError α → Except PyError α
  | .ok a => .ok a
  | .error e => .error (.valueError ("Failed to deserialize: " ++ errStr e))

/-- `deserialize_with_marshmallow(data, StockSchema())` on a dict input
(lines 200-223).  The result also carries the caller's dict as left after
the call: the `open_` → `open` fix-up mutates it in place. -/
def deserialize_stock_dict (data : JDict) : Except PyError PyStock × JDict :=
  match dictGet data "open_" with
  | some v =>
    -- data['open'] = data.pop('open_')
    let data2 := dictSet (dictRemove data "open_") "open" v
    (wrapLoad (loadStockSchema data2), data2)
  | none =>
    match dictGet data "open" with
    | some _ => (wrapLoad (loadStockSchema data), data)
    | none =>
      (.error (.valueError "Failed to deserialize: Missing required field \x27open\x27"),
       data)

/-- `deserialize_with_marshmallow(data, TradeSchema())` on a dict input:
no fix-up, the caller's dict is untouched. -/
def deserialize_trade_dict (data : JDict) : Except PyError PyTrade × JDict :=
  (wrapLoad (loadTradeSchema data), data)

/-- `deserialize_with_marshmallow(json_str, StockSchema())` on a text
input, modelled on the parsed tree.  Non-object JSON cannot occur for the
records considered here; the fallback mirrors the wrapper's `ValueError`. -/
def deserialize_stock_json (j : JValue) : Except PyError PyStock :=
  match j with
  | .jobj l => (deserialize_stock_dict l).1
  | _ => .error (.valueError "Failed to deserialize: invalid input type")

/-- `deserialize_with_marshmallow(json_str, TradeSchema())` on a text
input. -/
def deserialize_trade_json (j : JValue) : Except PyError PyTrade :=
  match j with
  | .jobj l => (deserialize_trade_dict l).1
  | _ => .error (.valueError "Failed to deserialize: invalid input type")

/-! ## Canonical wire shapes and concrete example values -/

/-- A Stock wire mapping (as decoded from text) with the given `date`
entry, wire key `open`, decimal fields as strings, and the trailing
discriminant. -/
def stockWireP (sym : String) (dateVal : PyValue) (o hi lo cl : String)
    (vol : Int) : PDict :=
  [("symbol", .vstr sym), ("date", dateVal), ("open", .vstr o),
   ("high", .vstr hi), ("low", .vstr lo), ("close", .vstr cl),
   ("volume", .vint vol), ("datatype", .vstr "stock")]

/-- A Stock wire JSON object with a bare ISO `date` string. -/
def stockWireJ (sym diso o hi lo cl : String) (vol : Int) : JDict :=
  [("symbol", .jstr sym), ("date", .jstr diso), ("open", .jstr o),
   ("high", .jstr hi), ("low", .jstr lo), ("close", .jstr cl),
   ("volume", .jint vol), ("datatype", .jstr "stock")]

/-- A Trade wire JSON object. -/
def tradeWireJ (sym tsIso ord p cm : String) (vol : Int) : JDict :=
  [("symbol", .jstr sym), ("timestamp", .jstr tsIso), ("order", .jstr ord),
   ("price", .jstr p), ("commission", .jstr cm), ("volume", .jint vol),
   ("datatype", .jstr "trade")]

/-- A concrete valid `Stock`. -/
def stockEx : PyStock :=
  ⟨"AAPL", ⟨"2023-01-05"⟩, ⟨"100.50"⟩, ⟨"105.00"⟩, ⟨"99.00"⟩, ⟨"104.00"⟩, 100000⟩

/-- A second concrete valid `Stock`. -/
def stockEx2 : PyStock :=
  ⟨"TSLA", ⟨"2024-02-29"⟩, ⟨"19.9999999999"⟩, ⟨"200.00"⟩, ⟨"180.00"⟩, ⟨"190.10"⟩, 5⟩

/-- A concrete valid `Trade`. -/
def tradeEx : PyTrade :=
  ⟨"MSFT", ⟨"2023-01-05T10:30:00+00:00"⟩, "buy", ⟨"250.25"⟩, 500, ⟨"9.99"⟩⟩

/-- What `StockSchema().dump(stockEx)` produces: every field except the
open price, which the schema cannot find under attribute `open_`. -/
def schemaStockWireEx : JDict :=
  [("symbol", .jstr "AAPL"), ("date", .jstr "2023-01-05"),
   ("high", .jstr "105.00"), ("low", .jstr "99.00"),
   ("close", .jstr "104.00"), ("volume", .jint 100000),
   ("datatype", .jstr "stock")]

/-- What `json.dumps(stockEx, cls=CustomEncoder)` produces: wrapped date,
wire key `open_` moved to the end. -/
def customStockWireEx : JDict :=
  [("symbol", .jstr "AAPL"),
   ("date", .jobj [("datatype", .jstr "date"), ("date", .jstr "2023-01-05")]),
   ("high", .jstr "105.00"), ("low", .jstr "99.00"),
   ("close", .jstr "104.00"), ("volume", .jint 100000),
   ("datatype", .jstr "stock"), ("open_", .jstr "100.50")]

/-- A Trade wire object whose `order` is the invalid `"hold"`. -/
def holdWireEx : JDict :=
  tradeWireJ "MSFT" "2023-01-05T10:30:00+00:00" "hold" "250.25" "9.99" 500

/-! ## Association-list lemmas for the Python dict operations -/

section DictLemmas

variable {α : Type}

theorem dictGet_dictSet_self (l : List (String × α)) (k : String) (v : α) :
    dictGet (dictSet l k v) k = some v := by
  induction l with
  | nil => simp [dictSet, dictGet]
  | cons h t ih =>
    obtain ⟨k', w⟩ := h
    by_cases hk : k' = k
    · simp [dictSet, hk, dictGet]
    · simp [dictSet, hk, dictGet, ih]

theorem dictGet_dictSet_ne (l : List (String × α)) (k k' : String) (v : α)
    (h : k' ≠ k) : dictGet (dictSet l k v) k' = dictGet l k' := by
  induction l with
  | nil => simp [dictSet, dictGet, Ne.symm h]
  | cons hd t ih =>
    obtain ⟨k0, w⟩ := hd
    by_cases hk : k0 = k
    · subst hk
      simp [dictSet, dictGet, Ne.symm h]
    · simp [dictSet, hk, dictGet, ih]

theorem dictGet_eq_none_of_not_mem (l : List (String × α)) (k : String)
    (h : k ∉ l.map Prod.fst) : dictGet l k = none := by
  induction l with
  | nil => rfl
  | cons hd t ih =>
    obtain ⟨k0, w⟩ := hd
    simp only [List.map_cons, List.mem_cons] at h
    push_neg at h
    simp [dictGet, Ne.symm h.1, ih h.2]

theorem dictGet_dictRemove_self (l : List (String × α)) (k : String)
    (h : (l.map Prod.fst).Nodup) : dictGet (dictRemove l k) k = none := by
  induction l with
  | nil => rfl
  | cons hd t ih =>
    obtain ⟨k0, w⟩ := hd
    simp only [List.map_cons, List.nodup_cons] at h
    by_cases hk : k0 = k
    · subst hk
      simp only [dictRemove, if_pos rfl]
      exact dictGet_eq_none_of_not_mem t k0 h.1
    · simp [dictRemove, hk, dictGet, ih h.2]

end DictLemmas

/-! ## General round-trip lemmas (the intact parts of the design) -/

/-- Decoding the custom wire tree of a Stock at any sufficient fuel
reconstructs the Stock: the wrapped date is decoded bottom-up by the
object hook, the `open_` wire key feeds the `open_` constructor
parameter, and the decimal strings parse back exactly. -/
theorem loads_stock_wire (n : Nat) (s : PyStock)
    (hdate : validDateIso s.date.iso = true)
    (ho : validDecStr s.open_.repr = true) (hh : validDecStr s.high.repr = true)
    (hl : validDecStr s.low.repr = true) (hc : validDecStr s.close.repr = true) :
    loadsF (n + 3) (.jobj
      [("symbol", .jstr s.symbol),
       ("date", .jobj [("datatype", .jstr "date"), ("date", .jstr s.date.iso)]),
       ("high", .jstr s.high.repr), ("low", .jstr s.low.repr),
       ("close", .jstr s.close.repr), ("volume", .jint s.volume),
       ("datatype", .jstr "stock"), ("open_", .jstr s.open_.repr)]) =
      .ok (.vstock s) := by
  simp [loadsF, mapSndM, custom_decoder, decodeStockBranch, coerceDec,
    resolveStockDate, mkStockKw, dictGet, dictSet, dictRemove, pyStr,
    decimalOfString, dateFromIso, hdate, ho, hh, hl, hc]

/-- `decode(encode(x)) == x` for every valid Stock: the custom path
round-trips (its wire shape is self-consistent even though it differs
from the schema path's). -/
theorem custom_roundtrip_stock (s : PyStock)
    (hdate : validDateIso s.date.iso = true)
    (ho : validDecStr s.open_.repr = true) (hh : validDecStr s.high.repr = true)
    (hl : validDecStr s.low.repr = true) (hc : validDecStr s.close.repr = true) :
    (encode (.vstock s)).bind decode = .ok (.vstock s) := by
  have henc : encode (.vstock s) = .ok (.jobj
      [("symbol", .jstr s.symbol),
       ("date", .jobj [("datatype", .jstr "date"), ("date", .jstr s.date.iso)]),
       ("high", .jstr s.high.repr), ("low", .jstr s.low.repr),
       ("close", .jstr s.close.repr), ("volume", .jint s.volume),
       ("datatype", .jstr "stock"), ("open_", .jstr s.open_.repr)]) := rfl
  rw [henc]
  show loadsF (13 + 3) (.jobj
      [("symbol", .jstr s.symbol),
       ("date", .jobj [("datatype", .jstr "date"), ("date", .jstr s.date.iso)]),
       ("high", .jstr s.high.repr), ("low", .jstr s.low.repr),
       ("close", .jstr s.close.repr), ("volume", .jint s.volume),
       ("datatype", .jstr "stock"), ("open_", .jstr s.open_.repr)]) =
    .ok (.vstock s)
  exact loads_stock_wire 13 s hdate ho hh hl hc

/-- `decode(encode(x)) == x` for every valid Trade on the custom path. -/
theorem custom_roundtrip_trade (t : PyTrade)
    (hts : validDatetimeIso t.timestamp.iso = true)
    (hp : validDecStr t.price.repr = true)
    (hc : validDecStr t.commission.repr = true) :
    (encode (.vtrade t)).bind decode = .ok (.vtrade t) := by
  have henc : encode (.vtrade t) = .ok (.jobj
      [("symbol", .jstr t.symbol), ("timestamp", .jstr t.timestamp.iso),
       ("order", .jstr t.order), ("price", .jstr t.price.repr),
       ("commission", .jstr t.commission.repr), ("volume", .jint t.volume),
       ("datatype", .jstr "trade")]) := rfl
  have hstep : decode (.jobj
      [("symbol", .jstr t.symbol), ("timestamp", .jstr t.timestamp.iso),
       ("order", .jstr t.order), ("price", .jstr t.price.repr),
       ("commission", .jstr t.commission.repr), ("volume", .jint t.volume),
       ("datatype", .jstr "trade")]) = custom_decoder (.vdict
      [("symbol", .vstr t.symbol), ("timestamp", .vstr t.timestamp.iso),
       ("order", .vstr t.order), ("price", .vstr t.price.repr),
       ("commission", .vstr t.commission.repr), ("volume", .vint t.volume),
       ("datatype", .vstr "trade")]) := rfl
  rw [henc]
  show decode (.jobj
      [("symbol", .jstr t.symbol), ("timestamp", .jstr t.timestamp.iso),
       ("order", .jstr t.order), ("price", .jstr t.price.repr),
       ("commission", .jstr t.commission.repr), ("volume", .jint t.volume),
       ("datatype", .jstr "trade")]) = .ok (.vtrade t)
  rw [hstep]
  simp [custom_decoder, decodeTradeBranch, dictGet, dictSet, dictRemove,
    datetimeFromPy, coerceDec, pyStr, decimalOfString, mkTradeKw, hts, hp, hc]

/-- `validate_and_decode(validate_and_encode(x)) == x` for every valid
Trade: the schema path round-trips for Trade (every `TradeSchema`
attribute exists on the object, unlike the Stock case). -/
theorem schema_roundtrip_trade (t : PyTrade)
    (h4 : t.symbol.length = 4)
    (hord : t.order = "buy" ∨ t.order = "sell")
    (hts : validDatetimeIso t.timestamp.iso = true)
    (hp : validDecStr t.price.repr = true)
    (hc : validDecStr t.commission.repr = true) :
    (serialize_with_marshmallow (.vtrade t)).bind deserialize_trade_json = .ok t := by
  have hser : serialize_with_marshmallow (.vtrade t) = .ok (.jobj
      [("symbol", .jstr t.symbol), ("timestamp", .jstr t.timestamp.iso),
       ("order", .jstr t.order), ("price", .jstr t.price.repr),
       ("commission", .jstr t.commission.repr), ("volume", .jint t.volume),
       ("datatype", .jstr "trade")]) := rfl
  rw [hser]
  show deserialize_trade_json (.jobj
      [("symbol", .jstr t.symbol), ("timestamp", .jstr t.timestamp.iso),
       ("order", .jstr t.order), ("price", .jstr t.price.repr),
       ("commission", .jstr t.commission.repr), ("volume", .jint t.volume),
       ("datatype", .jstr "trade")]) = .ok t
  rcases hord with h | h <;>
    simp [deserialize_trade_json, deserialize_trade_dict, wrapLoad,
      loadTradeSchema, loadF, dictGet, deserSymbol, deserDateTimeF,
      deserOrder, deserDecimalF, deserIntegerF, decimalOfString, pyStrJ,
      fieldErrs, h4, hts, hp, hc, h] <;>
    rw [← h]

/-! ## Claim theorems -/

/-- Claim C1 (code bug at a failing input): the schema-path round-trip
`validate_and_decode(validate_and_encode(x)) == x` fails for every Stock.
`serialize_with_marshmallow` drops the open price — `StockSchema` reads
attribute `open_`, which `Stock.__init__` never writes (it stores the
value under attribute `open`) — so deserializing the produced text raises
the wrapper `ValueError` instead of returning the stock. -/
theorem C1_schema_roundtrip_drops_open :
    serialize_with_marshmallow (.vstock stockEx) = .ok (.jobj schemaStockWireEx) ∧
    deserialize_stock_json (.jobj schemaStockWireEx) =
      .error (.valueError "Failed to deserialize: Missing required field \x27open\x27") :=
  ⟨rfl, rfl⟩

/-- Claim C2, counterexample: cross-path interoperability fails for Stock
in both directions.  Text from the schema encoder lacks the open price,
so the tagged decoder dies with `KeyError('open_')`; text from the tagged
encoder carries a wrapped date object and the bogus wire key `open_`,
and the schema decoder rejects the wrapped date. -/
theorem C2_cross_path_fails_on_stock :
    (serialize_with_marshmallow (.vstock stockEx)).bind decode =
      .error (.keyError "open_") ∧
    (encode (.vstock stockEx)).bind deserialize_stock_json =
      .error (.valueError
        "Failed to deserialize: \x7b\x27date\x27: [\x27Not a valid date.\x27]\x7d") :=
  ⟨rfl, rfl⟩

/-- Claim C3 (code bug at a failing input): encoding a Stock does not
produce wire key `open`.  The custom encoder renames the in-memory key
`open` to wire key `open_` — the opposite of the claimed direction, and
contrary to `StockSchema`'s declared `data_key='open'` — and the schema
encoder emits neither key (it drops the field).  Decoding wire key `open`
does reconstruct the stock on the custom path. -/
theorem C3_custom_encoder_emits_open_underscore :
    encode (.vstock stockEx) = .ok (.jobj customStockWireEx) ∧
    dictGet customStockWireEx "open" = none ∧
    dictGet customStockWireEx "open_" = some (.jstr "100.50") ∧
    serialize_with_marshmallow (.vstock stockEx) = .ok (.jobj schemaStockWireEx) ∧
    dictGet schemaStockWireEx "open" = none ∧
    dictGet schemaStockWireEx "open_" = none ∧
    decode (.jobj (stockWireJ "AAPL" "2023-01-05" "100.50" "105.00" "99.00"
      "104.00" 100000)) = .ok (.vstock stockEx) :=
  ⟨rfl, rfl, rfl, rfl, rfl, rfl, rfl⟩

/-- Claim C4, counterexample: decoding `{"datatype": "option", "x": 1}`
does not fail — `custom_decoder` returns the mapping unchanged. -/
theorem C4_unknown_datatype_passthrough_example :
    custom_decoder (.vdict [("datatype", .vstr "option"), ("x", .vint 1)]) =
      .ok (.vdict [("datatype", .vstr "option"), ("x", .vint 1)]) := rfl

/-- Claim C4, amended: every mapping whose `datatype` tag is a string
outside `{stock, trade, date}` is returned unchanged by the tagged
decoder (silent pass-through; no `UnknownDatatype` error exists). -/
theorem C4_unknown_datatype_passthrough (l : PDict) (s : String)
    (hget : dictGet l "datatype" = some (.vstr s))
    (hd : s ≠ "date") (ht : s ≠ "trade") (hs : s ≠ "stock") :
    custom_decoder (.vdict l) = .ok (.vdict l) := by
  simp [custom_decoder, hget, hd, ht, hs]

/-- Witness for `C4_unknown_datatype_passthrough` at the tag `option`. -/
theorem C4_unknown_datatype_passthrough_witness :
    custom_decoder (.vdict [("datatype", .vstr "option"), ("x", .vint 1)]) =
      .ok (.vdict [("datatype", .vstr "option"), ("x", .vint 1)]) :=
  C4_unknown_datatype_passthrough _ "option" rfl (by decide) (by decide) (by decide)

/-- Claim C5, counterexample: encoding a Stock on the tagged path emits
the top-level `date` field as the wrapped `{datatype: "date", ...}`
mapping, not as a bare ISO date string. -/
theorem C5_stock_date_wrapped_example :
    encode (.vstock stockEx2) = .ok (.jobj
      [("symbol", .jstr "TSLA"),
       ("date", .jobj [("datatype", .jstr "date"), ("date", .jstr "2024-02-29")]),
       ("high", .jstr "200.00"), ("low", .jstr "180.00"),
       ("close", .jstr "190.10"), ("volume", .jint 5),
       ("datatype", .jstr "stock"), ("open_", .jstr "19.9999999999")]) := rfl

/-- Claim C5, amended: the tagged encoder wraps every calendar date —
nested ones and the top-level `date` field of a Stock alike; the bare ISO
date string for a Stock's direct `date` field is produced only by the
schema path. -/
theorem C5_tagged_encoder_wraps_every_date (s : PyStock) (dd : PyDate) :
    encode (.vstock s) = .ok (.jobj
      [("symbol", .jstr s.symbol),
       ("date", .jobj [("datatype", .jstr "date"), ("date", .jstr s.date.iso)]),
       ("high", .jstr s.high.repr), ("low", .jstr s.low.repr),
       ("close", .jstr s.close.repr), ("volume", .jint s.volume),
       ("datatype", .jstr "stock"), ("open_", .jstr s.open_.repr)]) ∧
    encode (.vdict [("d", .vdate dd)]) =
      .ok (.jobj [("d", .jobj [("datatype", .jstr "date"), ("date", .jstr dd.iso)])]) ∧
    serialize_with_marshmallow (.vstock s) = .ok (.jobj
      [("symbol", .jstr s.symbol), ("date", .jstr s.date.iso),
       ("high", .jstr s.high.repr), ("low", .jstr s.low.repr),
       ("close", .jstr s.close.repr), ("volume", .jint s.volume),
       ("datatype", .jstr "stock")]) :=
  ⟨rfl, rfl, rfl⟩

/-- Claim C8, counterexample: validating a Trade with `order="hold"`
through `deserialize_with_marshmallow` does not surface a structured
field-error value — the `ValidationError` is caught and re-raised as a
generic `ValueError` whose message is the stringified mapping. -/
theorem C8_hold_wrapped_into_generic_valueerror :
    deserialize_trade_dict holdWireEx =
      (.error (.valueError
        "Failed to deserialize: \x7b\x27order\x27: [\x27Must be one of: buy, sell.\x27]\x7d"),
       holdWireEx) := rfl

/-- Claim C6: the tagged decoder accepts a Stock wire mapping whose
`date` entry is an already-native date, a wrapped
`{"datatype": "date", "date": ...}` mapping, or a bare ISO date string,
and all three shapes decode to the same Stock. -/
theorem C6_date_shape_tolerance (sym diso o hi lo cl : String) (vol : Int)
    (hdate : validDateIso diso = true)
    (ho : validDecStr o = true) (hh : validDecStr hi = true)
    (hl : validDecStr lo = true) (hc : validDecStr cl = true) :
    custom_decoder (.vdict (stockWireP sym (.vstr diso) o hi lo cl vol)) =
      .ok (.vstock ⟨sym, ⟨diso⟩, ⟨o⟩, ⟨hi⟩, ⟨lo⟩, ⟨cl⟩, vol⟩) ∧
    custom_decoder (.vdict (stockWireP sym
        (.vdict [("datatype", .vstr "date"), ("date", .vstr diso)]) o hi lo cl vol)) =
      .ok (.vstock ⟨sym, ⟨diso⟩, ⟨o⟩, ⟨hi⟩, ⟨lo⟩, ⟨cl⟩, vol⟩) ∧
    custom_decoder (.vdict (stockWireP sym (.vdate ⟨diso⟩) o hi lo cl vol)) =
      .ok (.vstock ⟨sym, ⟨diso⟩, ⟨o⟩, ⟨hi⟩, ⟨lo⟩, ⟨cl⟩, vol⟩) := by
  refine ⟨?_, ?_, ?_⟩ <;>
    simp [custom_decoder, stockWireP, decodeStockBranch, coerceDec,
      resolveStockDate, mkStockKw, dictGet, dictSet, dictRemove, pyStr,
      decimalOfString, dateFromIso, hdate, ho, hh, hl, hc]

/-- Witness for `C6_date_shape_tolerance` at a concrete wire mapping. -/
theorem C6_date_shape_tolerance_witness :
    validDateIso "2023-01-05" = true ∧
    custom_decoder (.vdict (stockWireP "AAPL" (.vstr "2023-01-05") "100.50"
        "105.00" "99.00" "104.00" 100000)) = .ok (.vstock stockEx) ∧
    custom_decoder (.vdict (stockWireP "AAPL"
        (.vdict [("datatype", .vstr "date"), ("date", .vstr "2023-01-05")])
        "100.50" "105.00" "99.00" "104.00" 100000)) = .ok (.vstock stockEx) :=
  ⟨by decide,
   (C6_date_shape_tolerance "AAPL" "2023-01-05" "100.50" "105.00" "99.00"
      "104.00" 100000 (by decide) (by decide) (by decide) (by decide) (by decide)).1,
   (C6_date_shape_tolerance "AAPL" "2023-01-05" "100.50" "105.00" "99.00"
      "104.00" 100000 (by decide) (by decide) (by decide) (by decide) (by decide)).2.1⟩

/-- Claim C7: decimal fields travel as exact decimal strings on both
paths — the tagged encoder and `DecimalField._serialize` emit the `str()`
of the decimal, and both decoders parse by stringify-then-`Decimal` —
so a decoded decimal is identical to the encoded one. -/
theorem C7_decimal_exactness (d : PyDecimal) (h : validDecStr d.repr = true) :
    encode (.vdec d) = .ok (.jstr d.repr) ∧
    DecimalField_serialize (.vdec d) = .jstr d.repr ∧
    decimalOfString (pyStr (.vstr d.repr)) = .ok d ∧
    deserDecimalF (.jstr d.repr) = .ok (.ok d) := by
  refine ⟨rfl, rfl, ?_, ?_⟩
  · simp [decimalOfString, pyStr, h]
  · simp [deserDecimalF, decimalOfString, pyStrJ, h]

/-- Witness for `C7_decimal_exactness` at `19.9999999999`. -/
theorem C7_decimal_exactness_witness :
    validDecStr "19.9999999999" = true ∧
    (encode (.vdec ⟨"19.9999999999"⟩) = .ok (.jstr "19.9999999999") ∧
     DecimalField_serialize (.vdec ⟨"19.9999999999"⟩) = .jstr "19.9999999999" ∧
     decimalOfString (pyStr (.vstr "19.9999999999")) = .ok ⟨"19.9999999999"⟩ ∧
     deserDecimalF (.jstr "19.9999999999") = .ok (.ok ⟨"19.9999999999"⟩)) :=
  ⟨by decide, C7_decimal_exactness ⟨"19.9999999999"⟩ (by decide)⟩

/-- Claim C10: calling `deserialize_with_marshmallow` for the Stock
schema with a mapping that has key `open_` mutates the caller's mapping:
the entry is removed, its value re-inserted under key `open`, and the
mapping is observably different after the call. -/
theorem C10_deserialize_mutates_caller_dict (data : JDict) (v : JValue)
    (hget : dictGet data "open_" = some v)
    (hnd : (data.map Prod.fst).Nodup) :
    dictGet (deserialize_stock_dict data).2 "open_" = none ∧
    dictGet (deserialize_stock_dict data).2 "open" = some v ∧
    (deserialize_stock_dict data).2 ≠ data := by
  have h2 : (deserialize_stock_dict data).2 =
      dictSet (dictRemove data "open_") "open" v := by
    simp [deserialize_stock_dict, hget]
  have hA : dictGet (deserialize_stock_dict data).2 "open_" = none := by
    rw [h2, dictGet_dictSet_ne _ _ _ _ (by decide)]
    exact dictGet_dictRemove_self data "open_" hnd
  refine ⟨hA, by rw [h2, dictGet_dictSet_self], ?_⟩
  intro heq
  rw [heq, hget] at hA
  exact Option.noConfusion hA

/-- The caller-visible dict of the C10 witness. -/
def d10Ex : JDict :=
  [("symbol", .jstr "AAPL"), ("date", .jstr "2023-01-05"),
   ("open_", .jstr "100.50"), ("high", .jstr "105.00"), ("low", .jstr "99.00"),
   ("close", .jstr "104.00"), ("volume", .jint 100000)]

/-- Witness for `C10_deserialize_mutates_caller_dict` at `d10Ex`. -/
theorem C10_deserialize_mutates_caller_dict_witness :
    dictGet (deserialize_stock_dict d10Ex).2 "open_" = none ∧
    dictGet (deserialize_stock_dict d10Ex).2 "open" = some (.jstr "100.50") ∧
    (deserialize_stock_dict d10Ex).2 ≠ d10Ex :=
  C10_deserialize_mutates_caller_dict d10Ex (.jstr "100.50") rfl (by decide)

/-- Claim C2, amended: cross-path interoperability does hold for every
valid Trade — text from the schema encoder is reconstructed by the
tagged decoder, and text from the tagged encoder passes schema
validation — while it fails for Stock (see the counterexample). -/
theorem C2_cross_path_interop_trade (t : PyTrade)
    (h4 : t.symbol.length = 4)
    (hord : t.order = "buy" ∨ t.order = "sell")
    (hts : validDatetimeIso t.timestamp.iso = true)
    (hp : validDecStr t.price.repr = true)
    (hc : validDecStr t.commission.repr = true) :
    (serialize_with_marshmallow (.vtrade t)).bind decode = .ok (.vtrade t) ∧
    (encode (.vtrade t)).bind deserialize_trade_json = .ok t := by
  constructor
  · have hser : serialize_with_marshmallow (.vtrade t) = .ok (.jobj
        [("symbol", .jstr t.symbol), ("timestamp", .jstr t.timestamp.iso),
         ("order", .jstr t.order), ("price", .jstr t.price.repr),
         ("commission", .jstr t.commission.repr), ("volume", .jint t.volume),
         ("datatype", .jstr "trade")]) := rfl
    have hstep : decode (.jobj
        [("symbol", .jstr t.symbol), ("timestamp", .jstr t.timestamp.iso),
         ("order", .jstr t.order), ("price", .jstr t.price.repr),
         ("commission", .jstr t.commission.repr), ("volume", .jint t.volume),
         ("datatype", .jstr "trade")]) = custom_decoder (.vdict
        [("symbol", .vstr t.symbol), ("timestamp", .vstr t.timestamp.iso),
         ("order", .vstr t.order), ("price", .vstr t.price.repr),
         ("commission", .vstr t.commission.repr), ("volume", .vint t.volume),
         ("datatype", .vstr "trade")]) := rfl
    rw [hser]
    show decode (.jobj
        [("symbol", .jstr t.symbol), ("timestamp", .jstr t.timestamp.iso),
         ("order", .jstr t.order), ("price", .jstr t.price.repr),
         ("commission", .jstr t.commission.repr), ("volume", .jint t.volume),
         ("datatype", .jstr "trade")]) = .ok (.vtrade t)
    rw [hstep]
    simp [custom_decoder, decodeTradeBranch, dictGet, dictSet, dictRemove,
      datetimeFromPy, coerceDec, pyStr, decimalOfString, mkTradeKw,
      hts, hp, hc]
  · have henc : encode (.vtrade t) = .ok (.jobj
        [("symbol", .jstr t.symbol), ("timestamp", .jstr t.timestamp.iso),
         ("order", .jstr t.order), ("price", .jstr t.price.repr),
         ("commission", .jstr t.commission.repr), ("volume", .jint t.volume),
         ("datatype", .jstr "trade")]) := rfl
    rw [henc]
    show deserialize_trade_json (.jobj
        [("symbol", .jstr t.symbol), ("timestamp", .jstr t.timestamp.iso),
         ("order", .jstr t.order), ("price", .jstr t.price.repr),
         ("commission", .jstr t.commission.repr), ("volume", .jint t.volume),
         ("datatype", .jstr "trade")]) = .ok t
    rcases hord with h | h <;>
      simp [deserialize_trade_json, deserialize_trade_dict, wrapLoad,
        loadTradeSchema, loadF, dictGet, deserSymbol, deserDateTimeF,
        deserOrder, deserDecimalF, deserIntegerF, decimalOfString, pyStrJ,
        fieldErrs, h4, hts, hp, hc, h] <;>
      rw [← h]

/-- Witness for `C2_cross_path_interop_trade` at a concrete trade. -/
theorem C2_cross_path_interop_trade_witness :
    (serialize_with_marshmallow (.vtrade tradeEx)).bind decode =
      .ok (.vtrade tradeEx) ∧
    (encode (.vtrade tradeEx)).bind deserialize_trade_json = .ok tradeEx :=
  C2_cross_path_interop_trade tradeEx (by decide) (Or.inl rfl) (by decide)
    (by decide) (by decide)

/-- Claim C8, amended: `Schema.load` does aggregate one message per
invalid or missing field — `order="hold"` yields a `ValidationError`
naming `order`, and a bad symbol and a bad order are reported together —
but `deserialize_with_marshmallow` catches that structured error and
re-raises a generic `ValueError` whose message is its stringification. -/
theorem C8_schema_error_aggregation (sym symB tsIso ord p cm : String) (vol : Int)
    (h4 : sym.length = 4) (hB : ¬ symB.length = 4)
    (hts : validDatetimeIso tsIso = true)
    (hp : validDecStr p = true) (hc : validDecStr cm = true)
    (hno : ¬ (ord = "buy" ∨ ord = "sell")) :
    loadTradeSchema (tradeWireJ sym tsIso ord p cm vol) =
      .error (.validationError [("order", "Must be one of: buy, sell.")]) ∧
    loadTradeSchema (tradeWireJ symB tsIso ord p cm vol) =
      .error (.validationError
        [("symbol", "Length must be 4."), ("order", "Must be one of: buy, sell.")]) ∧
    deserialize_trade_dict (tradeWireJ sym tsIso ord p cm vol) =
      (.error (.valueError ("Failed to deserialize: " ++
         errStr (.validationError [("order", "Must be one of: buy, sell.")]))),
       tradeWireJ sym tsIso ord p cm vol) := by
  refine ⟨?_, ?_, ?_⟩ <;>
    simp [deserialize_trade_dict, wrapLoad, loadTradeSchema, loadF,
      tradeWireJ, dictGet, deserSymbol, deserDateTimeF, deserOrder,
      deserDecimalF, deserIntegerF, decimalOfString, pyStrJ, fieldErrs,
      h4, hB, hts, hp, hc, hno]

/-- Witness for `C8_schema_error_aggregation` at `order="hold"`. -/
theorem C8_schema_error_aggregation_witness :
    loadTradeSchema (tradeWireJ "MSFT" "2023-01-05T10:30:00+00:00" "hold"
        "250.25" "9.99" 500) =
      .error (.validationError [("order", "Must be one of: buy, sell.")]) ∧
    loadTradeSchema (tradeWireJ "ABC" "2023-01-05T10:30:00+00:00" "hold"
        "250.25" "9.99" 500) =
      .error (.validationError
        [("symbol", "Length must be 4."), ("order", "Must be one of: buy, sell.")]) ∧
    deserialize_trade_dict (tradeWireJ "MSFT" "2023-01-05T10:30:00+00:00" "hold"
        "250.25" "9.99" 500) =
      (.error (.valueError ("Failed to deserialize: " ++
         errStr (.validationError [("order", "Must be one of: buy, sell.")]))),
       tradeWireJ "MSFT" "2023-01-05T10:30:00+00:00" "hold" "250.25" "9.99" 500) :=
  C8_schema_error_aggregation "MSFT" "ABC" "2023-01-05T10:30:00+00:00" "hold"
    "250.25" "9.99" 500 (by decide) (by decide) (by decide) (by decide)
    (by decide) (by decide)

/-- Claim C9: on the schema path, for both record kinds, a symbol whose
length is not 4 fails validation with a field error naming `symbol`,
and a 4-character symbol passes the constraint (with all other fields
valid, the whole load succeeds). -/
theorem C9_symbol_length_enforced
    (sym symB diso o hi lo cl tsIso ord p cm : String) (vol : Int)
    (h4 : sym.length = 4) (hB : ¬ symB.length = 4)
    (hdate : validDateIso diso = true) (hts : validDatetimeIso tsIso = true)
    (ho : validDecStr o = true) (hh : validDecStr hi = true)
    (hl : validDecStr lo = true) (hc : validDecStr cl = true)
    (hp : validDecStr p = true) (hcm : validDecStr cm = true)
    (hord : ord = "buy" ∨ ord = "sell") :
    loadStockSchema (stockWireJ symB diso o hi lo cl vol) =
      .error (.validationError [("symbol", "Length must be 4.")]) ∧
    loadTradeSchema (tradeWireJ symB tsIso ord p cm vol) =
      .error (.validationError [("symbol", "Length must be 4.")]) ∧
    loadStockSchema (stockWireJ sym diso o hi lo cl vol) =
      .ok ⟨sym, ⟨diso⟩, ⟨o⟩, ⟨hi⟩, ⟨lo⟩, ⟨cl⟩, vol⟩ ∧
    loadTradeSchema (tradeWireJ sym tsIso ord p cm vol) =
      .ok ⟨sym, ⟨tsIso⟩, ord, ⟨p⟩, vol, ⟨cm⟩⟩ := by
  rcases hord with h | h <;>
    refine ⟨?_, ?_, ?_, ?_⟩ <;>
      simp [loadStockSchema, loadTradeSchema, loadF, stockWireJ, tradeWireJ,
        dictGet, deserSymbol, deserDateF, deserDateTimeF, deserOrder,
        deserDecimalF, deserIntegerF, decimalOfString, pyStrJ, fieldErrs,
        h4, hB, hdate, hts, ho, hh, hl, hc, hp, hcm, h]

/-- Witness for `C9_symbol_length_enforced` at symbols `ABC` and `AAPL`. -/
theorem C9_symbol_length_enforced_witness :
    loadStockSchema (stockWireJ "ABC" "2023-01-05" "100.50" "105.00" "99.00"
        "104.00" 500) =
      .error (.validationError [("symbol", "Length must be 4.")]) ∧
    loadTradeSchema (tradeWireJ "ABC" "2023-01-05T10:30:00+00:00" "buy"
        "250.25" "9.99" 500) =
      .error (.validationError [("symbol", "Length must be 4.")]) ∧
    loadStockSchema (stockWireJ "AAPL" "2023-01-05" "100.50" "105.00" "99.00"
        "104.00" 500) =
      .ok ⟨"AAPL", ⟨"2023-01-05"⟩, ⟨"100.50"⟩, ⟨"105.00"⟩, ⟨"99.00"⟩, ⟨"104.00"⟩, 500⟩ ∧
    loadTradeSchema (tradeWireJ "AAPL" "2023-01-05T10:30:00+00:00" "buy"
        "250.25" "9.99" 500) =
      .ok ⟨"AAPL", ⟨"2023-01-05T10:30:00+00:00"⟩, "buy", ⟨"250.25"⟩, 500, ⟨"9.99"⟩⟩ :=
  C9_symbol_length_enforced "AAPL" "ABC" "2023-01-05" "100.50" "105.00"
    "99.00" "104.00" "2023-01-05T10:30:00+00:00" "buy" "250.25" "9.99" 500
    (by decide) (by decide) (by decide) (by decide) (by decide) (by decide)
    (by decide) (by decide) (by decide) (by decide) (Or.inl rfl)

end Assignment
